import Mathlib

/-!
Verification of the ATSDC/AZ-DCTS stack scaffolding CLI.

This file gives a shallow embedding of the command-line scaffolder
(`bin/cli.js`, interactive variant) and proves properties of the
embedded functions.  Filesystem contents are modelled as association
lists from file names to file contents, subprocess invocations and
interactive prompts are recorded as events in a trace, and
`process.exit` is modelled by an optional exit code in the final
outcome.  Text files are modelled as their list of lines.
-/

set_option maxRecDepth 4000

namespace ATSDC

/-- Association-list lookup, mirroring JavaScript object property read
(`obj[k]`): the value at the first matching key, or `none`. -/
def alGet {α : Type} : List (String × α) → String → Option α
  | [], _ => none
  | p :: rest, k => if p.1 = k then some p.2 else alGet rest k

/-- Association-list update, mirroring JavaScript object property
assignment (`obj[k] = v`): replace the value at an existing key, else
append a new entry. -/
def alSet {α : Type} : List (String × α) → String → α → List (String × α)
  | [], k, v => [(k, v)]
  | p :: rest, k, v => if p.1 = k then (k, v) :: rest else p :: alSet rest k v

/-- Association-list deletion, mirroring JavaScript `delete obj[k]`. -/
def alDel {α : Type} (l : List (String × α)) (k : String) : List (String × α) :=
  l.filter (fun p => p.1 ≠ k)

/-- Key membership in an association list. -/
def alHas {α : Type} (l : List (String × α)) (k : String) : Bool :=
  (alGet l k).isSome

@[simp] theorem alGet_alSet_self {α : Type} (l : List (String × α)) (k : String) (v : α) :
    alGet (alSet l k v) k = some v := by
  induction l with
  | nil => simp [alGet, alSet]
  | cons p rest ih =>
    by_cases h : p.1 = k
    · simp [alGet, alSet, h]
    · simp [alGet, alSet, h, ih]

theorem alGet_alSet_ne {α : Type} (l : List (String × α)) (k k' : String) (v : α)
    (h : k ≠ k') : alGet (alSet l k' v) k = alGet l k := by
  have h' : ¬ k' = k := fun hh => h hh.symm
  induction l with
  | nil => simp [alGet, alSet, h']
  | cons p rest ih =>
    by_cases hp : p.1 = k'
    · have hpk : ¬ p.1 = k := by rw [hp]; exact h'
      simp [alGet, alSet, hp, h', hpk]
    · simp [alGet, alSet, hp, ih]

@[simp] theorem alGet_alDel_self {α : Type} (l : List (String × α)) (k : String) :
    alGet (alDel l k) k = none := by
  induction l with
  | nil => simp [alGet, alDel]
  | cons p rest ih =>
    by_cases hp : p.1 = k
    · simpa [alDel, List.filter_cons, hp] using ih
    · simpa [alDel, List.filter_cons, alGet, hp] using ih

theorem alGet_alDel_ne {α : Type} (l : List (String × α)) (k k' : String)
    (h : k ≠ k') : alGet (alDel l k') k = alGet l k := by
  induction l with
  | nil => simp [alGet, alDel]
  | cons p rest ih =>
    simp only [alDel, ne_eq, decide_not] at ih ⊢
    rw [List.filter_cons]
    by_cases hp : p.1 = k'
    · have hpk : ¬ p.1 = k := by rw [hp]; exact fun hh => h hh.symm
      have h' : ¬ k' = k := fun hh => h hh.symm
      simp [hp, alGet, hpk, h', ih]
    · simp [hp, alGet, ih]

theorem alDel_of_not_mem {α : Type} (l : List (String × α)) (k : String) :
    alGet l k = none → alDel l k = l := by
  induction l with
  | nil => intro _; simp [alDel]
  | cons p rest ih =>
    intro h
    by_cases hp : p.1 = k
    · simp [alGet, hp] at h
    · simp [alGet, hp] at h
      have hrest := ih h
      simp only [alDel] at hrest ⊢
      rw [List.filter_cons, if_pos (by simp [hp]), hrest]

/-- Lookup in a list of keys paired with a content function: used for the
block of template files copied into a fresh target directory. -/
theorem alGet_map_pair {α : Type} (l : List String) (g : String → α) (k : String) :
    alGet (l.map (fun f => (f, g f))) k = if k ∈ l then some (g k) else none := by
  induction l with
  | nil => simp [alGet]
  | cons x rest ih =>
    by_cases hx : x = k
    · subst hx; simp [alGet]
    · have hk : ¬ k = x := fun hh => hx hh.symm
      simp [alGet, hx, ih, hk]

/-! ### String helpers

The CLI relies on JavaScript's `String.prototype.trim`,
`String.prototype.toLowerCase`, `String.prototype.startsWith('-')` and
the project-name regular expression `/^[a-z0-9-_]+$/i`.  These are
embedded as total functions over the character list of a `String`. -/

/-- Whitespace test used by `trim` (ASCII space, tab, newline, carriage
return suffice for terminal input). -/
def isWhitespaceChar (c : Char) : Bool :=
  c = ' ' || c = '\t' || c = '\n' || c = '\r'

/-- JavaScript `String.prototype.trim` on terminal input. -/
def jsTrim (s : String) : String :=
  ⟨((s.data.dropWhile isWhitespaceChar).reverse.dropWhile isWhitespaceChar).reverse⟩

/-- ASCII lowercasing of one character, as applied by
`String.prototype.toLowerCase` to the flag values used here. -/
def charToLower (c : Char) : Char :=
  if 65 ≤ c.toNat ∧ c.toNat ≤ 90 then Char.ofNat (c.toNat + 32) else c

/-- JavaScript `String.prototype.toLowerCase` (ASCII fragment). -/
def strToLower (s : String) : String :=
  ⟨s.data.map charToLower⟩

/-- JavaScript `arg.startsWith('-')`. -/
def startsWithDash (s : String) : Bool :=
  match s.data with
  | [] => false
  | c :: _ => c = '-'

/-- One character of the project-name character class `[a-z0-9-_]` with
the `i` flag, that is `[A-Za-z0-9_-]`. -/
def isNameChar (c : Char) : Bool :=
  decide (97 ≤ c.toNat ∧ c.toNat ≤ 122) ||
  decide (65 ≤ c.toNat ∧ c.toNat ≤ 90) ||
  decide (48 ≤ c.toNat ∧ c.toNat ≤ 57) ||
  c = '-' || c = '_'

/-- The project-name validation regular expression `/^[a-z0-9-_]+$/i`:
non-empty and every character in the class. -/
def matchesNameRegex (s : String) : Bool :=
  !s.data.isEmpty && s.data.all isNameChar

/-- `promptYesNo(question, defaultValue)`: the prompt helper trims the
raw line (inside `promptUser`), returns the default on an empty answer,
and otherwise accepts exactly `y`/`yes` case-insensitively. -/
def promptYesNoPure (rawAnswer : String) (defaultValue : Bool) : Bool :=
  let answer := jsTrim rawAnswer
  if answer = "" then defaultValue
  else
    let normalized := strToLower answer
    normalized = "y" || normalized = "yes"

/-! ### Adapter descriptors -/

/-- An adapter descriptor: display name, internal value, optional npm
package identifier (`null` for the static variant). -/
structure Adapter where
  name : String
  value : String
  pkg : Option String
deriving DecidableEq, Repr

/-- `createAdapter(name)` as called throughout the CLI (always with the
single `name` argument, so `value` is derived as
`name.toLowerCase().split(' ')[0]` and `pkg` is derived as
`'@astrojs/' + value`, or `null` for `static`). -/
def createAdapter (name : String) : Adapter :=
  let adapterValue : String := ⟨(strToLower name).data.takeWhile (fun c => c ≠ ' ')⟩
  let adapterPkg : Option String :=
    if adapterValue = "static" then none else some ("@astrojs/" ++ adapterValue)
  ⟨name, adapterValue, adapterPkg⟩

/-- The numbered menu shown by `promptAdapter`. -/
def adaptersMenu (choice : String) : Option Adapter :=
  if choice = "1" then some (createAdapter "Vercel")
  else if choice = "2" then some (createAdapter "Netlify")
  else if choice = "3" then some (createAdapter "Cloudflare")
  else if choice = "4" then some (createAdapter "Node")
  else if choice = "5" then some (createAdapter "Static (no adapter)")
  else none

/-- `promptAdapter()` given the raw answer line: empty answer defaults to
choice `1` (Vercel); an unknown choice logs a warning and also falls
back to Vercel. -/
def promptAdapterPure (rawAnswer : String) : Adapter :=
  let answer := jsTrim rawAnswer
  let choice := if answer = "" then "1" else answer
  (adaptersMenu choice).getD (createAdapter "Vercel")

/-- The five valid values accepted by the `--adapter` flag. -/
def validAdapters : List String :=
  ["vercel", "netlify", "cloudflare", "node", "static"]

/-- The `adapterMap` object used when the `--adapter` flag is present
and its value is one of the five valid identifiers. -/
def adapterMap (v : String) : Option Adapter :=
  if v = "vercel" then some (createAdapter "Vercel")
  else if v = "netlify" then some (createAdapter "Netlify")
  else if v = "cloudflare" then some (createAdapter "Cloudflare")
  else if v = "node" then some (createAdapter "Node")
  else if v = "static" then some (createAdapter "Static (no adapter)")
  else none

/-- Resolution of an explicitly supplied (already lowercased) adapter
flag value: validated against the five-member set, with a warning and
fallback to the default Vercel adapter on an invalid value. -/
def resolveAdapterFlag (adapterValue : String) : Adapter :=
  if validAdapters.contains adapterValue then
    (adapterMap adapterValue).getD (createAdapter "Vercel")
  else
    createAdapter "Vercel"

/-! ### Astro configuration templates

`generateAstroConfig` maps an adapter key to the literal text of an
`astro.config.mjs` file.  Each file is modelled as its list of lines
(a trailing empty string represents the final newline of the template
literal).  The five line lists below are transcribed verbatim from the
five template literals in the source. -/

def astroConfigVercel : List String := [
  "\x69mport \x7b defineConfig \x7d from \x27astro/config\x27;",
  "\x69mport react from \x27@astrojs/react\x27;",
  "\x69mport vercel from \x27@astrojs/vercel/serverless\x27;",
  "\x69mport clerk from \x27@clerk/astro\x27;",
  "\x69mport \x7b VitePWA \x7d from \x27vite-plugin-pwa\x27;",
  "",
  "export default defineConfig(\x7b",
  "    output: \x27server\x27,",
  "    adapter: vercel(),",
  "    integrations: [",
  "        react(),",
  "        clerk(\x7b",
  "            afterSignInUrl: \x27/\x27,",
  "            afterSignUpUrl: \x27/\x27,",
  "        \x7d),",
  "    ],",
  "    vite: \x7b",
  "        plugins: [",
  "            VitePWA(\x7b",
  "                registerType: \x27autoUpdate\x27,",
  "                includeAssets: [\x27favicon.ico\x27, \x27apple-touch-icon.png\x27, \x27mask-icon.svg\x27],",
  "                manifest: \x7b",
  "                    name: \x27ATSDC Stack App\x27,",
  "                    short_name: \x27ATSDC\x27,",
  "                    description: \x27Progressive Web App built with the ATSDC Stack\x27,",
  "                    theme_color: \x27#ffffff\x27,",
  "                    background_color: \x27#ffffff\x27,",
  "                    display: \x27standalone\x27,",
  "                    icons: [",
  "                        \x7b",
  "                            src: \x27pwa-192x192.png\x27,",
  "                            sizes: \x27192x192\x27,",
  "                            type: \x27image/png\x27,",
  "                        \x7d,",
  "                        \x7b",
  "                            src: \x27pwa-512x512.png\x27,",
  "                            sizes: \x27512x512\x27,",
  "                            type: \x27image/png\x27,",
  "                        \x7d,",
  "                        \x7b",
  "                            src: \x27pwa-512x512.png\x27,",
  "                            sizes: \x27512x512\x27,",
  "                            type: \x27image/png\x27,",
  "                            purpose: \x27any maskable\x27,",
  "                        \x7d,",
  "                    ],",
  "                \x7d,",
  "                workbox: \x7b",
  "                    globPatterns: [\x27**/*.\x7bjs,css,html,ico,png,svg,woff2\x7d\x27],",
  "                    runtimeCaching: [",
  "                        \x7b",
  "                            urlPattern: /^https:\\/\\/api\\./i,",
  "                            handler: \x27NetworkFirst\x27,",
  "                            options: \x7b",
  "                                cacheName: \x27api-cache\x27,",
  "                                expiration: \x7b",
  "                                    maxEntries: 50,",
  "                                    maxAgeSeconds: 60 * 60 * 24,",
  "                                \x7d,",
  "                            \x7d,",
  "                        \x7d,",
  "                    ],",
  "                \x7d,",
  "            \x7d),",
  "        ],",
  "        css: \x7b",
  "            preprocessorOptions: \x7b",
  "                scss: \x7b",
  "                    additionalData: \x60@import \"@/styles/variables/globals.scss\";\x60,",
  "                \x7d,",
  "            \x7d,",
  "        \x7d,",
  "    \x7d,",
  "\x7d);",
  ""]

def astroConfigNetlify : List String := [
  "\x69mport \x7b defineConfig \x7d from \x27astro/config\x27;",
  "\x69mport react from \x27@astrojs/react\x27;",
  "\x69mport netlify from \x27@astrojs/netlify\x27;",
  "\x69mport clerk from \x27@clerk/astro\x27;",
  "\x69mport \x7b VitePWA \x7d from \x27vite-plugin-pwa\x27;",
  "",
  "export default defineConfig(\x7b",
  "    output: \x27server\x27,",
  "    adapter: netlify(),",
  "    integrations: [",
  "        react(),",
  "        clerk(\x7b",
  "            afterSignInUrl: \x27/\x27,",
  "            afterSignUpUrl: \x27/\x27,",
  "        \x7d),",
  "    ],",
  "    vite: \x7b",
  "        plugins: [",
  "            VitePWA(\x7b",
  "                registerType: \x27autoUpdate\x27,",
  "                includeAssets: [\x27favicon.ico\x27, \x27apple-touch-icon.png\x27, \x27mask-icon.svg\x27],",
  "                manifest: \x7b",
  "                    name: \x27ATSDC Stack App\x27,",
  "                    short_name: \x27ATSDC\x27,",
  "                    description: \x27Progressive Web App built with the ATSDC Stack\x27,",
  "                    theme_color: \x27#ffffff\x27,",
  "                    background_color: \x27#ffffff\x27,",
  "                    display: \x27standalone\x27,",
  "                    icons: [",
  "                        \x7b",
  "                            src: \x27pwa-192x192.png\x27,",
  "                            sizes: \x27192x192\x27,",
  "                            type: \x27image/png\x27,",
  "                        \x7d,",
  "                        \x7b",
  "                            src: \x27pwa-512x512.png\x27,",
  "                            sizes: \x27512x512\x27,",
  "                            type: \x27image/png\x27,",
  "                        \x7d,",
  "                        \x7b",
  "                            src: \x27pwa-512x512.png\x27,",
  "                            sizes: \x27512x512\x27,",
  "                            type: \x27image/png\x27,",
  "                            purpose: \x27any maskable\x27,",
  "                        \x7d,",
  "                    ],",
  "                \x7d,",
  "                workbox: \x7b",
  "                    globPatterns: [\x27**/*.\x7bjs,css,html,ico,png,svg,woff2\x7d\x27],",
  "                    runtimeCaching: [",
  "                        \x7b",
  "                            urlPattern: /^https:\\/\\/api\\./i,",
  "                            handler: \x27NetworkFirst\x27,",
  "                            options: \x7b",
  "                                cacheName: \x27api-cache\x27,",
  "                                expiration: \x7b",
  "                                    maxEntries: 50,",
  "                                    maxAgeSeconds: 60 * 60 * 24,",
  "                                \x7d,",
  "                            \x7d,",
  "                        \x7d,",
  "                    ],",
  "                \x7d,",
  "            \x7d),",
  "        ],",
  "        css: \x7b",
  "            preprocessorOptions: \x7b",
  "                scss: \x7b",
  "                    additionalData: \x60@import \"@/styles/variables/globals.scss\";\x60,",
  "                \x7d,",
  "            \x7d,",
  "        \x7d,",
  "    \x7d,",
  "\x7d);",
  ""]

def astroConfigCloudflare : List String := [
  "\x69mport \x7b defineConfig \x7d from \x27astro/config\x27;",
  "\x69mport react from \x27@astrojs/react\x27;",
  "\x69mport cloudflare from \x27@astrojs/cloudflare\x27;",
  "\x69mport clerk from \x27@clerk/astro\x27;",
  "\x69mport \x7b VitePWA \x7d from \x27vite-plugin-pwa\x27;",
  "",
  "export default defineConfig(\x7b",
  "    output: \x27server\x27,",
  "    adapter: cloudflare(),",
  "    integrations: [",
  "        react(),",
  "        clerk(\x7b",
  "            afterSignInUrl: \x27/\x27,",
  "            afterSignUpUrl: \x27/\x27,",
  "        \x7d),",
  "    ],",
  "    vite: \x7b",
  "        plugins: [",
  "            VitePWA(\x7b",
  "                registerType: \x27autoUpdate\x27,",
  "                includeAssets: [\x27favicon.ico\x27, \x27apple-touch-icon.png\x27, \x27mask-icon.svg\x27],",
  "                manifest: \x7b",
  "                    name: \x27ATSDC Stack App\x27,",
  "                    short_name: \x27ATSDC\x27,",
  "                    description: \x27Progressive Web App built with the ATSDC Stack\x27,",
  "                    theme_color: \x27#ffffff\x27,",
  "                    background_color: \x27#ffffff\x27,",
  "                    display: \x27standalone\x27,",
  "                    icons: [",
  "                        \x7b",
  "                            src: \x27pwa-192x192.png\x27,",
  "                            sizes: \x27192x192\x27,",
  "                            type: \x27image/png\x27,",
  "                        \x7d,",
  "                        \x7b",
  "                            src: \x27pwa-512x512.png\x27,",
  "                            sizes: \x27512x512\x27,",
  "                            type: \x27image/png\x27,",
  "                        \x7d,",
  "                        \x7b",
  "                            src: \x27pwa-512x512.png\x27,",
  "                            sizes: \x27512x512\x27,",
  "                            type: \x27image/png\x27,",
  "                            purpose: \x27any maskable\x27,",
  "                        \x7d,",
  "                    ],",
  "                \x7d,",
  "                workbox: \x7b",
  "                    globPatterns: [\x27**/*.\x7bjs,css,html,ico,png,svg,woff2\x7d\x27],",
  "                    runtimeCaching: [",
  "                        \x7b",
  "                            urlPattern: /^https:\\/\\/api\\./i,",
  "                            handler: \x27NetworkFirst\x27,",
  "                            options: \x7b",
  "                                cacheName: \x27api-cache\x27,",
  "                                expiration: \x7b",
  "                                    maxEntries: 50,",
  "                                    maxAgeSeconds: 60 * 60 * 24,",
  "                                \x7d,",
  "                            \x7d,",
  "                        \x7d,",
  "                    ],",
  "                \x7d,",
  "            \x7d),",
  "        ],",
  "        css: \x7b",
  "            preprocessorOptions: \x7b",
  "                scss: \x7b",
  "                    additionalData: \x60@import \"@/styles/variables/globals.scss\";\x60,",
  "                \x7d,",
  "            \x7d,",
  "        \x7d,",
  "    \x7d,",
  "\x7d);",
  ""]

def astroConfigNode : List String := [
  "\x69mport \x7b defineConfig \x7d from \x27astro/config\x27;",
  "\x69mport react from \x27@astrojs/react\x27;",
  "\x69mport node from \x27@astrojs/node\x27;",
  "\x69mport clerk from \x27@clerk/astro\x27;",
  "\x69mport \x7b VitePWA \x7d from \x27vite-plugin-pwa\x27;",
  "",
  "export default defineConfig(\x7b",
  "    output: \x27server\x27,",
  "    adapter: node(\x7b",
  "        mode: \x27standalone\x27",
  "    \x7d),",
  "    integrations: [",
  "        react(),",
  "        clerk(\x7b",
  "            afterSignInUrl: \x27/\x27,",
  "            afterSignUpUrl: \x27/\x27,",
  "        \x7d),",
  "    ],",
  "    vite: \x7b",
  "        plugins: [",
  "            VitePWA(\x7b",
  "                registerType: \x27autoUpdate\x27,",
  "                includeAssets: [\x27favicon.ico\x27, \x27apple-touch-icon.png\x27, \x27mask-icon.svg\x27],",
  "                manifest: \x7b",
  "                    name: \x27ATSDC Stack App\x27,",
  "                    short_name: \x27ATSDC\x27,",
  "                    description: \x27Progressive Web App built with the ATSDC Stack\x27,",
  "                    theme_color: \x27#ffffff\x27,",
  "                    background_color: \x27#ffffff\x27,",
  "                    display: \x27standalone\x27,",
  "                    icons: [",
  "                        \x7b",
  "                            src: \x27pwa-192x192.png\x27,",
  "                            sizes: \x27192x192\x27,",
  "                            type: \x27image/png\x27,",
  "                        \x7d,",
  "                        \x7b",
  "                            src: \x27pwa-512x512.png\x27,",
  "                            sizes: \x27512x512\x27,",
  "                            type: \x27image/png\x27,",
  "                        \x7d,",
  "                        \x7b",
  "                            src: \x27pwa-512x512.png\x27,",
  "                            sizes: \x27512x512\x27,",
  "                            type: \x27image/png\x27,",
  "                            purpose: \x27any maskable\x27,",
  "                        \x7d,",
  "                    ],",
  "                \x7d,",
  "                workbox: \x7b",
  "                    globPatterns: [\x27**/*.\x7bjs,css,html,ico,png,svg,woff2\x7d\x27],",
  "                    runtimeCaching: [",
  "                        \x7b",
  "                            urlPattern: /^https:\\/\\/api\\./i,",
  "                            handler: \x27NetworkFirst\x27,",
  "                            options: \x7b",
  "                                cacheName: \x27api-cache\x27,",
  "                                expiration: \x7b",
  "                                    maxEntries: 50,",
  "                                    maxAgeSeconds: 60 * 60 * 24,",
  "                                \x7d,",
  "                            \x7d,",
  "                        \x7d,",
  "                    ],",
  "                \x7d,",
  "            \x7d),",
  "        ],",
  "        css: \x7b",
  "            preprocessorOptions: \x7b",
  "                scss: \x7b",
  "                    additionalData: \x60@import \"@/styles/variables/globals.scss\";\x60,",
  "                \x7d,",
  "            \x7d,",
  "        \x7d,",
  "    \x7d,",
  "\x7d);",
  ""]

def astroConfigStatic : List String := [
  "\x69mport \x7b defineConfig \x7d from \x27astro/config\x27;",
  "\x69mport react from \x27@astrojs/react\x27;",
  "\x69mport clerk from \x27@clerk/astro\x27;",
  "\x69mport \x7b VitePWA \x7d from \x27vite-plugin-pwa\x27;",
  "",
  "export default defineConfig(\x7b",
  "    output: \x27static\x27,",
  "    integrations: [",
  "        react(),",
  "        clerk(\x7b",
  "            afterSignInUrl: \x27/\x27,",
  "            afterSignUpUrl: \x27/\x27,",
  "        \x7d),",
  "    ],",
  "    vite: \x7b",
  "        plugins: [",
  "            VitePWA(\x7b",
  "                registerType: \x27autoUpdate\x27,",
  "                includeAssets: [\x27favicon.ico\x27, \x27apple-touch-icon.png\x27, \x27mask-icon.svg\x27],",
  "                manifest: \x7b",
  "                    name: \x27ATSDC Stack App\x27,",
  "                    short_name: \x27ATSDC\x27,",
  "                    description: \x27Progressive Web App built with the ATSDC Stack\x27,",
  "                    theme_color: \x27#ffffff\x27,",
  "                    background_color: \x27#ffffff\x27,",
  "                    display: \x27standalone\x27,",
  "                    icons: [",
  "                        \x7b",
  "                            src: \x27pwa-192x192.png\x27,",
  "                            sizes: \x27192x192\x27,",
  "                            type: \x27image/png\x27,",
  "                        \x7d,",
  "                        \x7b",
  "                            src: \x27pwa-512x512.png\x27,",
  "                            sizes: \x27512x512\x27,",
  "                            type: \x27image/png\x27,",
  "                        \x7d,",
  "                        \x7b",
  "                            src: \x27pwa-512x512.png\x27,",
  "                            sizes: \x27512x512\x27,",
  "                            type: \x27image/png\x27,",
  "                            purpose: \x27any maskable\x27,",
  "                        \x7d,",
  "                    ],",
  "                \x7d,",
  "                workbox: \x7b",
  "                    globPatterns: [\x27**/*.\x7bjs,css,html,ico,png,svg,woff2\x7d\x27],",
  "                    runtimeCaching: [",
  "                        \x7b",
  "                            urlPattern: /^https:\\/\\/api\\./i,",
  "                            handler: \x27NetworkFirst\x27,",
  "                            options: \x7b",
  "                                cacheName: \x27api-cache\x27,",
  "                                expiration: \x7b",
  "                                    maxEntries: 50,",
  "                                    maxAgeSeconds: 60 * 60 * 24,",
  "                                \x7d,",
  "                            \x7d,",
  "                        \x7d,",
  "                    ],",
  "                \x7d,",
  "            \x7d),",
  "        ],",
  "        css: \x7b",
  "            preprocessorOptions: \x7b",
  "                scss: \x7b",
  "                    additionalData: \x60@import \"@/styles/variables/globals.scss\";\x60,",
  "                \x7d,",
  "            \x7d,",
  "        \x7d,",
  "    \x7d,",
  "\x7d);",
  ""]

def adapterSpecificLines : List String := [
  "\x69mport vercel from \x27@astrojs/vercel/serverless\x27;",
  "\x69mport netlify from \x27@astrojs/netlify\x27;",
  "\x69mport cloudflare from \x27@astrojs/cloudflare\x27;",
  "\x69mport node from \x27@astrojs/node\x27;",
  "    adapter: vercel(),",
  "    adapter: netlify(),",
  "    adapter: cloudflare(),",
  "    adapter: node(\x7b",
  "        mode: \x27standalone\x27",
  "    \x7d),"]

def outputModeLines : List String := [
  "    output: \x27server\x27,",
  "    output: \x27static\x27,"]

/-- The `configs` object lookup of `generateAstroConfig`. -/
def configsLookup (adapter : String) : Option (List String) :=
  if adapter = "vercel" then some astroConfigVercel
  else if adapter = "netlify" then some astroConfigNetlify
  else if adapter = "cloudflare" then some astroConfigCloudflare
  else if adapter = "node" then some astroConfigNode
  else if adapter = "static" then some astroConfigStatic
  else none

/-- `generateAstroConfig(adapter)`: `configs[adapter] || configs.vercel`
(every config text is non-empty, so the JavaScript falsiness check
coincides with definedness). -/
def generateAstroConfig (adapter : String) : List String :=
  (configsLookup adapter).getD astroConfigVercel

/-! ### Package manifest model -/

/-- A parsed `package.json`: the fields the CLI reads or writes.  The
`dependencies` field is optional, as in JSON (`none` models an absent
field, i.e. `undefined` in JavaScript). -/
structure PackageJson where
  name : String
  version : String
  dependencies : Option (List (String × String))
deriving DecidableEq, Repr

/-- JavaScript truthiness of `deps[k]`: the key is present and its value
is a non-empty string. -/
def depTruthy (deps : List (String × String)) (k : String) : Bool :=
  match alGet deps k with
  | some s => !(s == "")
  | none => false

/-- The resolved options record passed to `createProject`. -/
structure Options where
  install : Bool
  setupDb : Bool
  adapter : Option String
  adapterInfo : Option Adapter
deriving DecidableEq, Repr

/-- The `else if (options.adapter === 'static')` branch of the manifest
rewrite: reading `packageJson.dependencies['@astrojs/vercel']` throws a
`TypeError` when the `dependencies` field is absent; otherwise a truthy
default-adapter entry is deleted. -/
def updateStaticBranch (pkg : PackageJson) (options : Options) : Except String PackageJson :=
  if options.adapter = some "static" then
    match pkg.dependencies with
    | none => Except.error "TypeError"
    | some deps =>
      if depTruthy deps "@astrojs/vercel" = true then
        Except.ok { pkg with dependencies := some (alDel deps "@astrojs/vercel") }
      else
        Except.ok pkg
  else
    Except.ok pkg

/-- Step 4 of `createProject`: overwrite the manifest name with the
project name; if `adapterInfo && adapterInfo.pkg` is truthy, ensure a
dependencies object exists, add the adapter package keyed entry with the
default adapter version (`deps['@astrojs/vercel'] || '^7.8.1'`), and
delete the default `@astrojs/vercel` entry when switching away from
Vercel; otherwise fall through to the static branch. -/
def updatePackageJson (pkg0 : PackageJson) (projectName : String) (options : Options) :
    Except String PackageJson :=
  let pkg := { pkg0 with name := projectName }
  match options.adapterInfo with
  | some ai =>
    match ai.pkg with
    | some apkg =>
      if apkg = "" then updateStaticBranch pkg options
      else
        let deps0 := match pkg.dependencies with
          | some d => d
          | none => []
        let ver := match alGet deps0 "@astrojs/vercel" with
          | some s => if s = "" then "^7.8.1" else s
          | none => "^7.8.1"
        let deps1 := alSet deps0 apkg ver
        let deps2 :=
          if ai.value ≠ "vercel" ∧ depTruthy deps1 "@astrojs/vercel" = true then
            alDel deps1 "@astrojs/vercel"
          else deps1
        Except.ok { pkg with dependencies := some deps2 }
    | none => updateStaticBranch pkg options
  | none => updateStaticBranch pkg options

/-! ### Project materialization -/

/-- The contents of a file in the target directory. -/
inductive FileContent where
  | fromTemplate : String → FileContent
  | astroConfig : List String → FileContent
  | pkgJson : PackageJson → FileContent
deriving DecidableEq, Repr

/-- Observable events of one CLI run: directory creation, file copies
and writes, subprocess invocations (with the success of the subprocess),
interactive prompts, and help/version output. -/
inductive Ev where
  | mkdirTarget : Ev
  | copyTemplateFile : String → Ev
  | writeAstro : Ev
  | copyDir : String → Ev
  | writePkg : Ev
  | writeEnvFile : Ev
  | execCmd : String → Bool → Ev
  | promptName : Ev
  | promptInstall : Ev
  | promptSetupDb : Ev
  | promptAdapterChoice : Ev
  | promptLogin : Ev
  | printHelp : Ev
  | printVersion : String → Ev
deriving DecidableEq, Repr

/-- The outcome of one CLI run: the event trace in order, the exit code
(`some c` for an explicit `process.exit(c)`, `none` for running to
completion, which yields process status 0), the final contents of the
target directory, whether the target directory was created, and the
project name that reached `createProject` (if any). -/
structure Outcome where
  events : List Ev
  exitCode : Option Nat
  files : List (String × FileContent)
  dirCreated : Bool
  usedName : Option String
deriving DecidableEq, Repr

/-- The environment a run executes in: whether the target directory
already exists, which files and directories the bundled template
provides, the parsed content of the template `package.json` files, and
the success of each subprocess, plus the raw answer to the final Vercel
login prompt (asked inside `createProject`). -/
structure Env where
  targetExists : Bool
  templateFiles : List String
  templateDirs : List String
  templatePkg : PackageJson
  rootVersion : String
  installOk : Bool
  dbPushOk : Bool
  loginOk : Bool
  loginAnswer : String
deriving DecidableEq, Repr

/-- The enumerated top-level template files copied by step 3. -/
def filesToCopy : List String :=
  ["package.json", "tsconfig.json", "drizzle.config.ts", ".env.example",
   ".gitignore", "README.md"]

/-- The template directory trees copied by step 3. -/
def dirsToCopy : List String := ["src", "public"]

/-- The files placed in the target by step 3's copy loop: each name in
`filesToCopy` that exists in the template's `app` directory. -/
def copyTemplateFiles (templateFiles : List String) : List (String × FileContent) :=
  (filesToCopy.filter (fun f => templateFiles.contains f)).map
    (fun f => (f, FileContent.fromTemplate f))

/-- JavaScript `options.adapter || 'vercel'` (undefined and the empty
string are falsy). -/
def adapterOrVercel (a : Option String) : String :=
  match a with
  | some v => if v = "" then "vercel" else v
  | none => "vercel"

/-!
`createProject(projectName, options)` is the linear materialization
sequence.  Step 1 exits with status 1 if the target directory already
exists, before performing any write.  Steps 2-5 create the directory,
copy template files, generate `astro.config.mjs`, copy `src/` and
`public/`, rewrite `package.json`, and copy `.env.example` to `.env`.
Step 6 runs `npm install` when requested (failure caught and logged).
Step 7 runs `setupDatabase` when both flags are set, which skips with a
warning when the target has no `.env`, else runs `npm run db:push`
(failure caught).  Step 8, when the install option is set, offers the
Vercel login prompt and on a yes answer runs `npx vercel login`
(failure caught).  A thrown error anywhere (missing target
`package.json` at step 4, or the static-branch `TypeError`) is caught
by the surrounding handler and exits with status 1.
-/

/-- The target-directory contents after step 3 of `createProject`: the
copied template files plus the generated `astro.config.mjs` (written
from `generateAstroConfig(options.adapter || 'vercel')`). -/
def step3Files (options : Options) (env : Env) : List (String × FileContent) :=
  alSet (copyTemplateFiles env.templateFiles) "astro.config.mjs"
    (FileContent.astroConfig (generateAstroConfig (adapterOrVercel options.adapter)))

/-- The events of step 3 of `createProject`: directory creation, the
copy loop over `filesToCopy`, the generated config write, and the
directory-tree copies. -/
def step3Events (env : Env) : List Ev :=
  [Ev.mkdirTarget]
    ++ (filesToCopy.filter (fun f => env.templateFiles.contains f)).map Ev.copyTemplateFile
    ++ [Ev.writeAstro]
    ++ (dirsToCopy.filter (fun d => env.templateDirs.contains d)).map Ev.copyDir

/-- The materialization sequence of `createProject` (see the step
description on `step3Files`). -/
def createProject (projectName : String) (options : Options) (env : Env) : Outcome :=
  if env.targetExists then
    { events := [], exitCode := some 1, files := [], dirCreated := false,
      usedName := some projectName }
  else
    let files2 := step3Files options env
    let evs2 := step3Events env
    match alGet files2 "package.json" with
    | none =>
      { events := evs2, exitCode := some 1, files := files2, dirCreated := true,
        usedName := some projectName }
    | some _ =>
      match updatePackageJson env.templatePkg projectName options with
      | Except.error _ =>
        { events := evs2, exitCode := some 1, files := files2, dirCreated := true,
          usedName := some projectName }
      | Except.ok newPkg =>
        let files3 := alSet files2 "package.json" (FileContent.pkgJson newPkg)
        let evs3 := evs2 ++ [Ev.writePkg]
        let hasEnvExample := alHas files3 ".env.example"
        let files4 :=
          if hasEnvExample then
            alSet files3 ".env" (FileContent.fromTemplate ".env.example")
          else files3
        let evs4 := if hasEnvExample then evs3 ++ [Ev.writeEnvFile] else evs3
        let evs5 :=
          if options.install then evs4 ++ [Ev.execCmd "npm install" env.installOk]
          else evs4
        let evs6 :=
          if options.setupDb ∧ options.install then
            if alHas files4 ".env" then evs5 ++ [Ev.execCmd "npm run db:push" env.dbPushOk]
            else evs5
          else evs5
        let evs7 :=
          if options.install then
            let evsP := evs6 ++ [Ev.promptLogin]
            if promptYesNoPure env.loginAnswer true then
              evsP ++ [Ev.execCmd "npx vercel login" env.loginOk]
            else evsP
          else evs6
        { events := evs7, exitCode := none, files := files4, dirCreated := true,
          usedName := some projectName }

/-! ### Argument parsing and the main flow -/

/-- `args.length === 0 || args.includes('--help') || args.includes('-h')`:
the help short-circuit fires on an empty argument list as well as on an
explicit help flag. -/
def hasHelpShortcut (args : List String) : Bool :=
  args.isEmpty || args.contains "--help" || args.contains "-h"

/-- `args.includes('--version') || args.includes('-v')`. -/
def hasVersionFlag (args : List String) : Bool :=
  args.contains "--version" || args.contains "-v"

/-- `args.includes('--install') || args.includes('-i')`. -/
def installFlagOf (args : List String) : Bool :=
  args.contains "--install" || args.contains "-i"

/-- `args.includes('--setup-db') || args.includes('--db')`. -/
def setupDbFlagOf (args : List String) : Bool :=
  args.contains "--setup-db" || args.contains "--db"

/-- `args.findIndex(arg => arg === '--adapter' || arg === '-a')`. -/
def adapterFlagIndexOf (args : List String) : Option Nat :=
  args.findIdx? (fun a => a == "--adapter" || a == "-a")

/-- The lowercased value following the adapter flag, when the flag is
present and followed by a truthy (non-empty) argument. -/
def adapterValueOf (args : List String) : Option String :=
  match adapterFlagIndexOf args with
  | some i =>
    match args.get? (i + 1) with
    | some v => if v = "" then none else some (strToLower v)
    | none => none
  | none => none

/-- `arg !== adapterValue` (comparison with `null` is always true). -/
def notAdapterValue (av : Option String) (a : String) : Bool :=
  match av with
  | some v => !(a == v)
  | none => true

/-- Project-name resolution from the argument list: the first argument
that does not start with a hyphen and is not equal to the (lowercased)
adapter flag value.  A found empty string is falsy in JavaScript and
behaves like an absent name, hence `none`. -/
def projectNameFromArgs (args : List String) : Option String :=
  match args.find? (fun a => !(startsWithDash a) && notAdapterValue (adapterValueOf args) a) with
  | some s => if s = "" then none else some s
  | none => none

/-- All inputs of one CLI run: the argument list, the raw answers the
user would type at each interactive prompt, and the environment. -/
structure MainInput where
  args : List String
  nameAnswer : String
  installAnswer : String
  setupDbAnswer : String
  adapterAnswer : String
  env : Env
deriving DecidableEq, Repr

/-- The main CLI logic: help/version short-circuits, flag parsing,
prompt-or-flag resolution of the project name, install flag, setup-db
flag and adapter, then `createProject`.  The project name entered at
the prompt is trimmed, rejected (exit 1) when empty, and validated
against `/^[a-z0-9-_]+$/i` (exit 1 on failure); a name supplied as a
command-line argument takes the path that performs no validation. -/
def runMain (inp : MainInput) : Outcome :=
  let args := inp.args
  if hasHelpShortcut args then
    { events := [Ev.printHelp], exitCode := some 0, files := [], dirCreated := false,
      usedName := none }
  else if hasVersionFlag args then
    { events := [Ev.printVersion inp.env.rootVersion], exitCode := some 0, files := [],
      dirCreated := false, usedName := none }
  else
    let installFlagPassed := installFlagOf args
    let setupDbFlagPassed := setupDbFlagOf args
    let adapterValue := adapterValueOf args
    let nameRes : Except Outcome (String × List Ev) :=
      match projectNameFromArgs args with
      | some pn => Except.ok (pn, [])
      | none =>
        let answer := jsTrim inp.nameAnswer
        if answer = "" then
          Except.error { events := [Ev.promptName], exitCode := some 1, files := [],
                         dirCreated := false, usedName := none }
        else if matchesNameRegex answer = false then
          Except.error { events := [Ev.promptName], exitCode := some 1, files := [],
                         dirCreated := false, usedName := none }
        else
          Except.ok (answer, [Ev.promptName])
    match nameRes with
    | Except.error out => out
    | Except.ok (projectName, evName) =>
      let instRes : Bool × List Ev :=
        if installFlagPassed then (true, [])
        else (promptYesNoPure inp.installAnswer true, [Ev.promptInstall])
      let shouldInstall := instRes.1
      let dbRes : Bool × List Ev :=
        if shouldInstall ∧ ¬ setupDbFlagPassed then
          (promptYesNoPure inp.setupDbAnswer false, [Ev.promptSetupDb])
        else (setupDbFlagPassed, [])
      let shouldSetupDb := dbRes.1
      let adRes : Adapter × List Ev :=
        match adapterValue with
        | some v => (resolveAdapterFlag v, [])
        | none => (promptAdapterPure inp.adapterAnswer, [Ev.promptAdapterChoice])
      let selectedAdapter := adRes.1
      let flags : Options :=
        { install := shouldInstall, setupDb := shouldSetupDb,
          adapter := some selectedAdapter.value, adapterInfo := some selectedAdapter }
      let res := createProject projectName flags inp.env
      { res with events := evName ++ instRes.2 ++ dbRes.2 ++ adRes.2 ++ res.events }

/-! ### Trace observations -/

/-- Whether an event is an invocation of the database schema push. -/
def isDbPushEv (e : Ev) : Bool :=
  match e with
  | Ev.execCmd c _ => c == "npm run db:push"
  | _ => false

/-- Whether an event is any subprocess invocation. -/
def isExecEv (e : Ev) : Bool :=
  match e with
  | Ev.execCmd _ _ => true
  | _ => false

/-- The database schema push was invoked during the run. -/
def dbPushInvoked (o : Outcome) : Bool :=
  o.events.any isDbPushEv

/-- The Vercel login prompt was offered during the run. -/
def loginPromptOffered (o : Outcome) : Bool :=
  o.events.any (fun e => e == Ev.promptLogin)

/-- The run prompted interactively for the project name. -/
def promptedForName (o : Outcome) : Bool :=
  o.events.any (fun e => e == Ev.promptName)

/-- Some subprocess was invoked during the run. -/
def anyExecInvoked (o : Outcome) : Bool :=
  o.events.any isExecEv

/-! ### Line classification for the config templates (C5) -/

/-- A line belongs to the deployment-adapter import/invocation material:
the four adapter import lines and the `adapter:` invocation lines
(three lines for the node adapter). -/
def isAdapterSpecificLine (l : String) : Bool :=
  adapterSpecificLines.contains l

/-- A config with its adapter import/invocation lines removed. -/
def stripAdapterLines (a : String) : List String :=
  (generateAstroConfig a).filter (fun l => !(isAdapterSpecificLine l))

/-- A line belongs to the adapter import/invocation material or is the
`output:` mode line. -/
def isAdapterOrOutputLine (l : String) : Bool :=
  adapterSpecificLines.contains l || outputModeLines.contains l

/-- A config with its adapter import/invocation lines and its `output:`
mode line removed. -/
def stripAdapterOutputLines (a : String) : List String :=
  (generateAstroConfig a).filter (fun l => !(isAdapterOrOutputLine l))

/-! ### Sample concrete inputs

A representative template `package.json` and environment for concrete
runs (the bundled template ships all six `filesToCopy` entries, the
`src` and `public` trees, and a dependencies object containing the
default `@astrojs/vercel` adapter). -/

def samplePkg : PackageJson :=
  { name := "atsdc-stack-template", version := "1.0.0",
    dependencies := some [("astro", "^4.0.0"), ("@astrojs/vercel", "^7.8.1")] }

def sampleEnv : Env :=
  { targetExists := false, templateFiles := filesToCopy, templateDirs := ["src", "public"],
    templatePkg := samplePkg, rootVersion := "1.0.0", installOk := true, dbPushOk := true,
    loginOk := true, loginAnswer := "n" }

def sampleOptions : Options :=
  { install := false, setupDb := false, adapter := some "vercel",
    adapterInfo := some (createAdapter "Vercel") }

/-- A run whose project name is supplied on the command line and
contains `!`, a character outside `[A-Za-z0-9_-]`. -/
def inputUnvalidatedName : MainInput :=
  { args := ["bad!name"], nameAnswer := "", installAnswer := "n", setupDbAnswer := "",
    adapterAnswer := "", env := sampleEnv }

/-- A run with an empty argument list. -/
def inputEmptyArgs : MainInput :=
  { args := [], nameAnswer := "typed-name", installAnswer := "", setupDbAnswer := "",
    adapterAnswer := "", env := sampleEnv }

/-- A run with `--install` whose `npm install` subprocess fails. -/
def inputFailedInstall : MainInput :=
  { args := ["proj", "--install"], nameAnswer := "", installAnswer := "", setupDbAnswer := "",
    adapterAnswer := "", env := { sampleEnv with installOk := false } }

/-- A run with a help flag. -/
def inputHelpFlag : MainInput :=
  { args := ["--help"], nameAnswer := "", installAnswer := "", setupDbAnswer := "",
    adapterAnswer := "", env := sampleEnv }

/-- A run with no positional name whose prompted answer is invalid. -/
def inputPromptInvalid : MainInput :=
  { args := ["--install"], nameAnswer := "bad!", installAnswer := "", setupDbAnswer := "",
    adapterAnswer := "", env := sampleEnv }

/-- A run whose project name is supplied on the command line. -/
def inputNamed : MainInput :=
  { args := ["my-app"], nameAnswer := "", installAnswer := "n", setupDbAnswer := "",
    adapterAnswer := "", env := sampleEnv }

/-! ### Shared lemmas about the embedded functions -/

theorem alGet_copyTemplateFiles (tf : List String) (k : String) :
    alGet (copyTemplateFiles tf) k =
      if k ∈ filesToCopy ∧ tf.contains k = true then some (FileContent.fromTemplate k)
      else none := by
  simp [copyTemplateFiles, alGet_map_pair, List.mem_filter]

/-- The manifest rewrite succeeds whenever the template manifest has a
dependencies object, and the rewritten manifest's name is the project
name. -/
theorem updatePackageJson_name_ok (pkg : PackageJson) (n : String) (opts : Options)
    (d : List (String × String)) (hd : pkg.dependencies = some d) :
    ∃ q, updatePackageJson pkg n opts = Except.ok q ∧ q.name = n := by
  rcases pkg with ⟨pn, pv, pd⟩
  simp only [] at hd
  subst hd
  rcases opts with ⟨oi, os, oa, oinfo⟩
  unfold updatePackageJson updateStaticBranch
  rcases oinfo with _ | ⟨an, av, ap⟩
  · simp only []
    split
    · split <;> exact ⟨_, rfl, rfl⟩
    · exact ⟨_, rfl, rfl⟩
  · rcases ap with _ | apkg
    · simp only []
      split
      · split <;> exact ⟨_, rfl, rfl⟩
      · exact ⟨_, rfl, rfl⟩
    · simp only []
      split
      · split
        · split <;> exact ⟨_, rfl, rfl⟩
        · exact ⟨_, rfl, rfl⟩
      · exact ⟨_, rfl, rfl⟩

theorem alGet_step3Files_pkg (opts : Options) (env : Env)
    (hpj : env.templateFiles.contains "package.json" = true) :
    alGet (step3Files opts env) "package.json" =
      some (FileContent.fromTemplate "package.json") := by
  unfold step3Files
  rw [alGet_alSet_ne _ _ _ _ (by decide), alGet_copyTemplateFiles]
  have hm : "package.json" ∈ env.templateFiles := by simpa using hpj
  simp [filesToCopy, hm]

theorem alGet_step3Files_envExample (opts : Options) (env : Env) :
    alGet (step3Files opts env) ".env.example" =
      if env.templateFiles.contains ".env.example" = true
      then some (FileContent.fromTemplate ".env.example") else none := by
  unfold step3Files
  rw [alGet_alSet_ne _ _ _ _ (by decide), alGet_copyTemplateFiles]
  simp [filesToCopy]

theorem alGet_step3Files_env (opts : Options) (env : Env) :
    alGet (step3Files opts env) ".env" = none := by
  unfold step3Files
  rw [alGet_alSet_ne _ _ _ _ (by decide), alGet_copyTemplateFiles]
  simp [filesToCopy]

/-- Normal form of a successful `createProject` run: with a fresh
target, a template `package.json` present, and a successful manifest
rewrite, the run performs all steps, never exits explicitly, and its
events and final file contents are as listed. -/
theorem createProject_run (n : String) (opts : Options) (env : Env)
    (hfresh : env.targetExists = false)
    (hpj : env.templateFiles.contains "package.json" = true)
    (q : PackageJson)
    (hq : updatePackageJson env.templatePkg n opts = Except.ok q) :
    createProject n opts env =
      { events := step3Events env ++ [Ev.writePkg]
          ++ (if env.templateFiles.contains ".env.example" = true then [Ev.writeEnvFile] else [])
          ++ (if opts.install then [Ev.execCmd "npm install" env.installOk] else [])
          ++ (if opts.setupDb ∧ opts.install then
                (if env.templateFiles.contains ".env.example" = true
                 then [Ev.execCmd "npm run db:push" env.dbPushOk] else [])
              else [])
          ++ (if opts.install then
                Ev.promptLogin ::
                  (if promptYesNoPure env.loginAnswer true
                   then [Ev.execCmd "npx vercel login" env.loginOk] else [])
              else []),
        exitCode := none,
        files :=
          (if env.templateFiles.contains ".env.example" = true then
            alSet (alSet (step3Files opts env) "package.json" (FileContent.pkgJson q))
              ".env" (FileContent.fromTemplate ".env.example")
           else alSet (step3Files opts env) "package.json" (FileContent.pkgJson q)),
        dirCreated := true, usedName := some n } := by
  have h2 := alGet_step3Files_pkg opts env hpj
  have e1 : alGet (alSet (step3Files opts env) "package.json" (FileContent.pkgJson q))
      ".env.example" = alGet (step3Files opts env) ".env.example" :=
    alGet_alSet_ne _ _ _ _ (by decide)
  have e2 : alGet (alSet (step3Files opts env) "package.json" (FileContent.pkgJson q))
      ".env" = alGet (step3Files opts env) ".env" :=
    alGet_alSet_ne _ _ _ _ (by decide)
  unfold createProject
  rw [hfresh]
  simp only [Bool.false_eq_true, if_false, h2, hq]
  by_cases hEE : ".env.example" ∈ env.templateFiles
  · have hEEc : env.templateFiles.contains ".env.example" = true := by simpa using hEE
    rcases hI : opts.install <;> rcases hS : opts.setupDb <;>
        rcases hL : promptYesNoPure env.loginAnswer true <;>
      simp [alHas, e1, e2, alGet_step3Files_envExample, alGet_step3Files_env, hEE, hEEc, hL,
        List.append_assoc]
  · have hEEc : env.templateFiles.contains ".env.example" = false := by simpa using hEE
    rcases hI : opts.install <;> rcases hS : opts.setupDb <;>
        rcases hL : promptYesNoPure env.loginAnswer true <;>
      simp [alHas, e1, e2, alGet_step3Files_envExample, alGet_step3Files_env, hEE, hEEc, hL,
        List.append_assoc]

/-- `createProject` always records the project name it was invoked
with. -/
theorem createProject_usedName (n : String) (opts : Options) (env : Env) :
    (createProject n opts env).usedName = some n := by
  unfold createProject
  by_cases h : env.targetExists = true
  · rw [if_pos h]
  · rw [if_neg h]
    dsimp only
    cases halG : alGet (step3Files opts env) "package.json" with
    | none => rfl
    | some v =>
      cases hupd : updatePackageJson env.templatePkg n opts with
      | error e => simp [halG, hupd]
      | ok q => simp [halG, hupd]

/-- No event of step 3 satisfies a predicate that rejects directory
creation, template-file copies, the config write and directory-tree
copies. -/
theorem step3Events_any_false (env : Env) (p : Ev → Bool)
    (h1 : p Ev.mkdirTarget = false) (h2 : ∀ s, p (Ev.copyTemplateFile s) = false)
    (h3 : p Ev.writeAstro = false) (h4 : ∀ s, p (Ev.copyDir s) = false) :
    (step3Events env).any p = false := by
  simp [step3Events, List.any_append, List.any_map, Function.comp, h1, h2, h3, h4]
  refine ⟨?_, ?_⟩
  · intro x s _ _ hsx
    rw [← hsx]
    exact h2 s
  · intro x s _ _ hsx
    rw [← hsx]
    exact h4 s

/-- `createProject` never prompts for the project name. -/
theorem createProject_no_promptName (n : String) (opts : Options) (env : Env) :
    (createProject n opts env).events.any (fun e => e == Ev.promptName) = false := by
  have hs : (step3Events env).any (fun e => e == Ev.promptName) = false :=
    step3Events_any_false env _ (by decide) (fun s => by rfl) (by decide) (fun s => by rfl)
  unfold createProject
  by_cases h : env.targetExists = true
  · rw [if_pos h]
    rfl
  · rw [if_neg h]
    dsimp only
    cases halG : alGet (step3Files opts env) "package.json" with
    | none => simpa using hs
    | some v =>
      cases hupd : updatePackageJson env.templatePkg n opts with
      | error e => simpa using hs
      | ok q =>
        simp only []
        split_ifs <;> simp [List.any_append, hs]

/-- If a key looks up to a value in an association list, that value is
the second component of one of its entries. -/
theorem alGet_mem_values (l : List (String × String)) (k s : String)
    (h : alGet l k = some s) : ∃ p ∈ l, p.2 = s := by
  induction l with
  | nil => simp [alGet] at h
  | cons p rest ih =>
    by_cases hp : p.1 = k
    · simp [alGet, hp] at h
      exact ⟨p, List.mem_cons_self p rest, h⟩
    · simp [alGet, hp] at h
      obtain ⟨q, hq, hqs⟩ := ih h
      exact ⟨q, List.mem_cons_of_mem _ hq, hqs⟩

/-- Switching to a non-static, non-vercel adapter: the manifest rewrite
adds the adapter package entry and ends with no `@astrojs/vercel`
entry. -/
theorem updatePackageJson_switch (pkg : PackageJson) (n : String)
    (d : List (String × String)) (hd : pkg.dependencies = some d)
    (hne : ∀ p ∈ d, p.2 ≠ "")
    (dispName v : String)
    (hv : resolveAdapterFlag v = ⟨dispName, v, some ("@astrojs/" ++ v)⟩)
    (hvne : v ≠ "vercel")
    (hkne : ¬ "@astrojs/vercel" = "@astrojs/" ++ v)
    (hpkgne : ¬ "@astrojs/" ++ v = "") :
    ∃ d2, updatePackageJson pkg n
        { install := true, setupDb := false, adapter := some v,
          adapterInfo := some (resolveAdapterFlag v) } =
        Except.ok { pkg with name := n, dependencies := some d2 } ∧
      (alGet d2 ("@astrojs/" ++ v)).isSome = true ∧
      alGet d2 "@astrojs/vercel" = none := by
  rw [hv]
  rcases pkg with ⟨pn, pv, pd⟩
  simp only [] at hd
  subst hd
  unfold updatePackageJson
  simp only [hpkgne, if_false]
  have hvv : ∀ ver : String, alGet (alSet d ("@astrojs/" ++ v) ver) "@astrojs/vercel" =
      alGet d "@astrojs/vercel" :=
    fun ver => alGet_alSet_ne _ _ _ _ hkne
  cases hdv : alGet d "@astrojs/vercel" with
  | some s =>
    have hsne : ¬ s = "" := by
      obtain ⟨p, hp, hps⟩ := alGet_mem_values d _ s hdv
      rw [← hps]
      exact hne p hp
    have htr : depTruthy (alSet d ("@astrojs/" ++ v) (if s = "" then "^7.8.1" else s))
        "@astrojs/vercel" = true := by
      simp [depTruthy, hvv, hdv, hsne]
    refine ⟨alDel (alSet d ("@astrojs/" ++ v) (if s = "" then "^7.8.1" else s))
        "@astrojs/vercel", ?_, ?_, ?_⟩
    · simp [hdv, htr, hvne]
    · rw [alGet_alDel_ne _ _ _ (fun hh => hkne hh.symm)]
      simp
    · simp
  | none =>
    have htr : depTruthy (alSet d ("@astrojs/" ++ v) "^7.8.1") "@astrojs/vercel" = false := by
      simp [depTruthy, hvv, hdv]
    refine ⟨alSet d ("@astrojs/" ++ v) "^7.8.1", ?_, ?_, ?_⟩
    · simp [hdv, htr]
    · simp
    · rw [hvv, hdv]

/-! ### Claims -/

/-- C1: For every project name matching the accepted pattern
`[A-Za-z0-9_-]+`, running the scaffolder (against a non-existing target
directory, with the bundled template providing its `package.json` with
a dependencies object) creates a directory of that name and the
package manifest written by the rewrite step has its name field equal
to the given project name. -/
theorem C1_manifest_name (n : String) (opts : Options) (env : Env)
    (hname : matchesNameRegex n = true)
    (hfresh : env.targetExists = false)
    (hpj : env.templateFiles.contains "package.json" = true)
    (d : List (String × String)) (hdeps : env.templatePkg.dependencies = some d) :
    (createProject n opts env).dirCreated = true ∧
    ∃ p, alGet (createProject n opts env).files "package.json" =
        some (FileContent.pkgJson p) ∧ p.name = n := by
  obtain ⟨q, hq, hqn⟩ := updatePackageJson_name_ok env.templatePkg n opts d hdeps
  rw [createProject_run n opts env hfresh hpj q hq]
  refine ⟨rfl, q, ?_, hqn⟩
  by_cases hEE : ".env.example" ∈ env.templateFiles
  · have e : alGet (alSet (alSet (step3Files opts env) "package.json"
        (FileContent.pkgJson q)) ".env" (FileContent.fromTemplate ".env.example"))
        "package.json" =
        alGet (alSet (step3Files opts env) "package.json" (FileContent.pkgJson q))
          "package.json" :=
      alGet_alSet_ne _ _ _ _ (by decide)
    simp [hEE, e]
  · simp [hEE]

/-- C1 witness: the theorem at the concrete name `demo-app` and the
sample environment. -/
theorem C1_witness :
    (createProject "demo-app" sampleOptions sampleEnv).dirCreated = true ∧
    ∃ p, alGet (createProject "demo-app" sampleOptions sampleEnv).files "package.json" =
        some (FileContent.pkgJson p) ∧ p.name = "demo-app" :=
  C1_manifest_name "demo-app" sampleOptions sampleEnv (by decide) (by decide) (by decide)
    [("astro", "^4.0.0"), ("@astrojs/vercel", "^7.8.1")] (by decide)

/-- C2 counterexample: the project name `bad!name` contains a character
outside `[A-Za-z0-9_-]`, yet supplied as a command-line argument it
reaches `createProject` unvalidated: the run completes without any
non-zero exit (`exitCode = none`) and the target directory is created,
contradicting the claim that the process exits non-zero and creates no
directory. -/
theorem C2_counterexample :
    matchesNameRegex "bad!name" = false ∧
    (runMain inputUnvalidatedName).usedName = some "bad!name" ∧
    (runMain inputUnvalidatedName).exitCode = none ∧
    (runMain inputUnvalidatedName).dirCreated = true := by decide

/-- C2 amended: only a project name entered at the interactive prompt is
validated: when no usable name is found among the arguments and the
trimmed prompt answer fails the pattern (or is empty), the process
exits with status 1 having created no directory and written no file.  A
name supplied as a command-line argument is not validated at all. -/
theorem C2_amended_prompt_validation (inp : MainInput)
    (hh : hasHelpShortcut inp.args = false)
    (hv : hasVersionFlag inp.args = false)
    (hnone : projectNameFromArgs inp.args = none)
    (hinv : matchesNameRegex (jsTrim inp.nameAnswer) = false) :
    (runMain inp).exitCode = some 1 ∧ (runMain inp).dirCreated = false ∧
    (runMain inp).files = [] := by
  unfold runMain
  rw [if_neg (by simp [hh]), if_neg (by simp [hv])]
  dsimp only
  rw [hnone]
  by_cases he : jsTrim inp.nameAnswer = ""
  · simp [he]
  · simp [he, hinv]

/-- C2 witness: the amended theorem at a concrete run prompting for the
name and answering `bad!`. -/
theorem C2_witness :
    (runMain inputPromptInvalid).exitCode = some 1 ∧
    (runMain inputPromptInvalid).dirCreated = false ∧
    (runMain inputPromptInvalid).files = [] :=
  C2_amended_prompt_validation inputPromptInvalid (by decide) (by decide) (by decide)
    (by decide)

/-- C3: the database schema push subprocess runs exactly when the
install flag and the setup-db flag are both set and the target has a
`.env` file (which exists exactly when the template ships
`.env.example`); in particular install without setup-db never pushes,
and a missing environment file skips the push. -/
theorem C3_db_push_gating (n : String) (opts : Options) (env : Env)
    (hfresh : env.targetExists = false)
    (hpj : env.templateFiles.contains "package.json" = true)
    (d : List (String × String)) (hdeps : env.templatePkg.dependencies = some d) :
    dbPushInvoked (createProject n opts env) =
      (opts.install && opts.setupDb && env.templateFiles.contains ".env.example") := by
  obtain ⟨q, hq, _⟩ := updatePackageJson_name_ok env.templatePkg n opts d hdeps
  rw [createProject_run n opts env hfresh hpj q hq]
  have hs : (step3Events env).any isDbPushEv = false :=
    step3Events_any_false env _ (by decide) (fun s => by rfl) (by decide) (fun s => by rfl)
  rcases hI : opts.install <;> rcases hS : opts.setupDb <;>
      rcases hEE : env.templateFiles.contains ".env.example" <;>
      rcases hL : promptYesNoPure env.loginAnswer true <;>
    simp [dbPushInvoked, List.any_append, hs, hI, hS, hEE, hL, isDbPushEv]

/-- C3 witness: the theorem at a concrete run with both flags set. -/
theorem C3_witness :
    dbPushInvoked (createProject "demo-app"
        { install := true, setupDb := true, adapter := some "vercel",
          adapterInfo := some (createAdapter "Vercel") } sampleEnv) =
      (true && true && sampleEnv.templateFiles.contains ".env.example") :=
  C3_db_push_gating "demo-app"
    { install := true, setupDb := true, adapter := some "vercel",
      adapterInfo := some (createAdapter "Vercel") } sampleEnv (by decide) (by decide)
    [("astro", "^4.0.0"), ("@astrojs/vercel", "^7.8.1")] (by decide)

/-- C4: in the package-manifest rewrite, the static adapter adds no
dependency entry and removes any pre-existing `@astrojs/vercel` entry
(the result is exactly the original dependencies with that key
deleted); every non-static non-vercel adapter adds an entry keyed by
its `@astrojs/<value>` package name and leaves no `@astrojs/vercel`
entry.  Dependency versions are assumed non-empty (an empty version
string would be falsy in JavaScript). -/
theorem C4_manifest_adapter_rewrite (pkg : PackageJson) (n : String)
    (d : List (String × String)) (hd : pkg.dependencies = some d)
    (hne : ∀ p ∈ d, p.2 ≠ "") :
    (updatePackageJson pkg n
        { install := true, setupDb := false, adapter := some "static",
          adapterInfo := some (resolveAdapterFlag "static") } =
      Except.ok { pkg with name := n, dependencies := some (alDel d "@astrojs/vercel") }) ∧
    (∀ v ∈ (["netlify", "cloudflare", "node"] : List String),
      ∃ d2, updatePackageJson pkg n
          { install := true, setupDb := false, adapter := some v,
            adapterInfo := some (resolveAdapterFlag v) } =
          Except.ok { pkg with name := n, dependencies := some d2 } ∧
        (alGet d2 ("@astrojs/" ++ v)).isSome = true ∧
        alGet d2 "@astrojs/vercel" = none) := by
  constructor
  · have hra : resolveAdapterFlag "static" =
        ⟨"Static (no adapter)", "static", none⟩ := by decide
    rw [hra]
    rcases pkg with ⟨pn, pv, pd⟩
    simp only [] at hd
    subst hd
    cases hdv : alGet d "@astrojs/vercel" with
    | some s =>
      have hsne : ¬ s = "" := by
        obtain ⟨p, hp, hps⟩ := alGet_mem_values d _ s hdv
        rw [← hps]
        exact hne p hp
      have htr : depTruthy d "@astrojs/vercel" = true := by simp [depTruthy, hdv, hsne]
      simp [updatePackageJson, updateStaticBranch, htr]
    | none =>
      have htr : depTruthy d "@astrojs/vercel" = false := by simp [depTruthy, hdv]
      have hdel : alDel d "@astrojs/vercel" = d := alDel_of_not_mem d _ hdv
      simp [updatePackageJson, updateStaticBranch, htr, hdel]
  · intro v hv
    fin_cases hv
    · exact updatePackageJson_switch pkg n d hd hne "Netlify" "netlify" (by decide)
        (by decide) (by decide) (by decide)
    · exact updatePackageJson_switch pkg n d hd hne "Cloudflare" "cloudflare" (by decide)
        (by decide) (by decide) (by decide)
    · exact updatePackageJson_switch pkg n d hd hne "Node" "node" (by decide)
        (by decide) (by decide) (by decide)

/-- C4 witness: the theorem at the sample template manifest. -/
theorem C4_witness :
    (updatePackageJson samplePkg "demo-app"
        { install := true, setupDb := false, adapter := some "static",
          adapterInfo := some (resolveAdapterFlag "static") } =
      Except.ok { samplePkg with
                  name := "demo-app",
                  dependencies := some (alDel
                    [("astro", "^4.0.0"), ("@astrojs/vercel", "^7.8.1")] "@astrojs/vercel") }) ∧
    (∀ v ∈ (["netlify", "cloudflare", "node"] : List String),
      ∃ d2, updatePackageJson samplePkg "demo-app"
          { install := true, setupDb := false, adapter := some v,
            adapterInfo := some (resolveAdapterFlag v) } =
          Except.ok { samplePkg with name := "demo-app", dependencies := some d2 } ∧
        (alGet d2 ("@astrojs/" ++ v)).isSome = true ∧
        alGet d2 "@astrojs/vercel" = none) :=
  C4_manifest_adapter_rewrite samplePkg "demo-app"
    [("astro", "^4.0.0"), ("@astrojs/vercel", "^7.8.1")] (by decide) (by decide)

/-- C5 counterexample: the claim says the five config texts differ only
in the adapter import/invocation lines, but the vercel and static
variants also differ in the `output:` mode line, which is neither
an import nor an adapter invocation: after removing only the
adapter-specific lines the two line lists still differ. -/
theorem C5_counterexample :
    "    output: \x27server\x27," ∈ generateAstroConfig "vercel" ∧
    "    output: \x27static\x27," ∈ generateAstroConfig "static" ∧
    isAdapterSpecificLine "    output: \x27server\x27," = false ∧
    isAdapterSpecificLine "    output: \x27static\x27," = false ∧
    stripAdapterLines "vercel" ≠ stripAdapterLines "static" := by decide

/-- C5 amended: for every pair of the five adapter identifiers the two
generated configuration texts differ only in the adapter import and
invocation lines and the `output:` mode line; all other content
(integrations list, PWA manifest block, caching rules) is identical. -/
theorem C5_amended_common_content (a b : String)
    (ha : a ∈ validAdapters) (hb : b ∈ validAdapters) :
    stripAdapterOutputLines a = stripAdapterOutputLines b := by
  have hall : ∀ x ∈ validAdapters, ∀ y ∈ validAdapters,
      stripAdapterOutputLines x = stripAdapterOutputLines y := by decide
  exact hall a ha b hb

/-- C5 witness: the amended theorem at the pair netlify/node. -/
theorem C5_witness :
    "netlify" ∈ validAdapters ∧ "node" ∈ validAdapters ∧
    stripAdapterOutputLines "netlify" = stripAdapterOutputLines "node" :=
  ⟨by decide, by decide,
    C5_amended_common_content "netlify" "node" (by decide) (by decide)⟩

/-- C6: every adapter value outside the five identifiers falls back to
the default Vercel adapter, and the config generator returns the vercel
text for every unknown key. -/
theorem C6_unknown_adapter_fallback (a : String)
    (h : validAdapters.contains a = false) :
    generateAstroConfig a = astroConfigVercel ∧
    resolveAdapterFlag a = createAdapter "Vercel" := by
  have hm : a ∉ validAdapters := by simpa using h
  have hres : resolveAdapterFlag a = createAdapter "Vercel" := by
    simp [resolveAdapterFlag, hm]
  have hm2 := hm
  simp only [validAdapters, List.mem_cons, List.not_mem_nil, or_false, not_or] at hm2
  obtain ⟨h1, h2, h3, h4, h5⟩ := hm2
  exact ⟨by simp [generateAstroConfig, configsLookup, h1, h2, h3, h4, h5], hres⟩

/-- C6 witness: the theorem at the unknown adapter key `deno`. -/
theorem C6_witness :
    generateAstroConfig "deno" = astroConfigVercel ∧
    resolveAdapterFlag "deno" = createAdapter "Vercel" :=
  C6_unknown_adapter_fallback "deno" (by decide)

/-- C7: when the target directory already exists, `createProject` exits
with status 1 before performing any write: no events, no files, no
directory creation. -/
theorem C7_existing_dir (n : String) (opts : Options) (env : Env)
    (h : env.targetExists = true) :
    createProject n opts env =
      { events := [], exitCode := some 1, files := [], dirCreated := false,
        usedName := some n } := by
  unfold createProject
  rw [if_pos h]

/-- C7 witness: the theorem at the sample environment with an existing
target directory. -/
theorem C7_witness :
    createProject "demo-app" sampleOptions { sampleEnv with targetExists := true } =
      { events := [], exitCode := some 1, files := [], dirCreated := false,
        usedName := some "demo-app" } :=
  C7_existing_dir "demo-app" sampleOptions { sampleEnv with targetExists := true }
    (by decide)

/-- C8: an argument list containing `--help`/`-h` or `--version`/`-v`
makes the process print the help or version output and exit with status
0 before any other parsing: no directory is created, no file is
written, and no subprocess is invoked. -/
theorem C8_help_version_frame (inp : MainInput)
    (h : inp.args.contains "--help" = true ∨ inp.args.contains "-h" = true ∨
         inp.args.contains "--version" = true ∨ inp.args.contains "-v" = true) :
    (runMain inp).exitCode = some 0 ∧ (runMain inp).dirCreated = false ∧
    (runMain inp).files = [] ∧ anyExecInvoked (runMain inp) = false ∧
    ((runMain inp).events = [Ev.printHelp] ∨
      (runMain inp).events = [Ev.printVersion inp.env.rootVersion]) := by
  unfold runMain
  by_cases hh : hasHelpShortcut inp.args = true
  · rw [if_pos hh]
    exact ⟨rfl, rfl, rfl, rfl, Or.inl rfl⟩
  · have hv : hasVersionFlag inp.args = true := by
      rcases h with h | h | h | h
      · have hmem : "--help" ∈ inp.args := by simpa using h
        exact absurd (by simp [hasHelpShortcut, hmem] : hasHelpShortcut inp.args = true) hh
      · have hmem : "-h" ∈ inp.args := by simpa using h
        exact absurd (by simp [hasHelpShortcut, hmem] : hasHelpShortcut inp.args = true) hh
      · have hmem : "--version" ∈ inp.args := by simpa using h
        simp [hasVersionFlag, hmem]
      · have hmem : "-v" ∈ inp.args := by simpa using h
        simp [hasVersionFlag, hmem]
    rw [if_neg hh, if_pos hv]
    exact ⟨rfl, rfl, rfl, rfl, Or.inr rfl⟩

/-- C8 witness: the theorem at the concrete argument list `["--help"]`. -/
theorem C8_witness :
    (runMain inputHelpFlag).exitCode = some 0 ∧ (runMain inputHelpFlag).dirCreated = false ∧
    (runMain inputHelpFlag).files = [] ∧ anyExecInvoked (runMain inputHelpFlag) = false ∧
    ((runMain inputHelpFlag).events = [Ev.printHelp] ∨
      (runMain inputHelpFlag).events = [Ev.printVersion inputHelpFlag.env.rootVersion]) :=
  C8_help_version_frame inputHelpFlag (Or.inl (by decide))

/-- C9 counterexample: the empty argument list contains no help or
version flag, yet the CLI does not prompt for a project name — the
`args.length === 0` clause of the help short-circuit prints the help
text and exits 0, so no name is ever resolved. -/
theorem C9_counterexample :
    inputEmptyArgs.args = [] ∧
    inputEmptyArgs.args.contains "--help" = false ∧
    inputEmptyArgs.args.contains "-h" = false ∧
    inputEmptyArgs.args.contains "--version" = false ∧
    inputEmptyArgs.args.contains "-v" = false ∧
    promptedForName (runMain inputEmptyArgs) = false ∧
    (runMain inputEmptyArgs).usedName = none ∧
    (runMain inputEmptyArgs).exitCode = some 0 := by decide

/-- C9 amended: for every NON-EMPTY argument list without help or
version flags, the project name is resolved as the first argument that
does not start with a hyphen and is not equal to the (lowercased)
adapter flag value — that resolved name is exactly the one handed to
`createProject`, with no name prompt — and when no such argument
exists the CLI prompts interactively for the name. -/
theorem C9_amended_name_resolution (inp : MainInput)
    (hne : inp.args ≠ [])
    (hh1 : inp.args.contains "--help" = false) (hh2 : inp.args.contains "-h" = false)
    (hv1 : inp.args.contains "--version" = false) (hv2 : inp.args.contains "-v" = false) :
    (match projectNameFromArgs inp.args with
     | some pn => (runMain inp).usedName = some pn ∧ promptedForName (runMain inp) = false
     | none => promptedForName (runMain inp) = true) := by
  have hie : inp.args.isEmpty = false := by
    cases hargs : inp.args with
    | nil => exact absurd hargs hne
    | cons a l => rfl
  have hh : hasHelpShortcut inp.args = false := by
    simp only [hasHelpShortcut, hie, hh1, hh2, Bool.or_self, Bool.or_false]
  have hv : hasVersionFlag inp.args = false := by
    simp only [hasVersionFlag, hv1, hv2, Bool.or_self]
  unfold runMain
  rw [if_neg (by simp [hh]), if_neg (by simp [hv])]
  dsimp only
  cases hpn : projectNameFromArgs inp.args with
  | none =>
    by_cases he : jsTrim inp.nameAnswer = ""
    · simp [hpn, he, promptedForName]
    · by_cases hval : matchesNameRegex (jsTrim inp.nameAnswer) = false
      · simp [hpn, he, hval, promptedForName]
      · cases hav : adapterValueOf inp.args with
        | none =>
          simp only [hpn, he, hval, if_false, promptedForName, hav]
          split_ifs <;>
            simp [List.any_append, createProject_no_promptName]
        | some av =>
          simp only [hpn, he, hval, if_false, promptedForName, hav]
          split_ifs <;>
            simp [List.any_append, createProject_no_promptName]
  | some pn =>
    simp only [hpn]
    refine ⟨?_, ?_⟩
    · simp [createProject_usedName]
    · cases hav : adapterValueOf inp.args with
      | none =>
        simp only [promptedForName, hav]
        split_ifs <;>
          simp [List.any_append, createProject_no_promptName]
      | some av =>
        simp only [promptedForName, hav]
        split_ifs <;>
          simp [List.any_append, createProject_no_promptName]

/-- C9 witness: the amended theorem at the concrete argument list
`["my-app"]`. -/
theorem C9_witness :
    (match projectNameFromArgs inputNamed.args with
     | some pn => (runMain inputNamed).usedName = some pn ∧
         promptedForName (runMain inputNamed) = false
     | none => promptedForName (runMain inputNamed) = true) :=
  C9_amended_name_resolution inputNamed (by decide) (by decide) (by decide) (by decide)
    (by decide)

/-- C10 counterexample: with `--install`, the `npm install` subprocess
fails (recorded as `execCmd "npm install" false`), yet the Vercel login
prompt is still offered and the run completes — the code gates the
prompt on `options.install`, not on the install step having
succeeded. -/
theorem C10_counterexample :
    (runMain inputFailedInstall).events.contains (Ev.execCmd "npm install" false) = true ∧
    loginPromptOffered (runMain inputFailedInstall) = true ∧
    (runMain inputFailedInstall).exitCode = none := by decide

/-- C10 amended: the Vercel login prompt is offered exactly when the
install option is set, regardless of whether the install subprocess
succeeded; an install failure is caught and the run still completes
(no explicit exit). -/
theorem C10_amended_login_prompt (n : String) (opts : Options) (env : Env)
    (hfresh : env.targetExists = false)
    (hpj : env.templateFiles.contains "package.json" = true)
    (d : List (String × String)) (hdeps : env.templatePkg.dependencies = some d) :
    loginPromptOffered (createProject n opts env) = opts.install ∧
    (createProject n opts env).exitCode = none := by
  obtain ⟨q, hq, _⟩ := updatePackageJson_name_ok env.templatePkg n opts d hdeps
  rw [createProject_run n opts env hfresh hpj q hq]
  have hs : (step3Events env).any (fun e => e == Ev.promptLogin) = false :=
    step3Events_any_false env _ (by decide) (fun s => by rfl) (by decide) (fun s => by rfl)
  refine ⟨?_, rfl⟩
  rcases hI : opts.install <;> rcases hS : opts.setupDb <;>
      rcases hEE : env.templateFiles.contains ".env.example" <;>
      rcases hL : promptYesNoPure env.loginAnswer true <;>
    simp [loginPromptOffered, List.any_append, hs, hI, hS, hEE, hL]

/-- C10 witness: the amended theorem at a concrete run whose install
subprocess fails. -/
theorem C10_witness :
    loginPromptOffered (createProject "demo-app"
        { install := true, setupDb := false, adapter := some "vercel",
          adapterInfo := some (createAdapter "Vercel") }
        { sampleEnv with installOk := false }) = true ∧
    (createProject "demo-app"
        { install := true, setupDb := false, adapter := some "vercel",
          adapterInfo := some (createAdapter "Vercel") }
        { sampleEnv with installOk := false }).exitCode = none :=
  C10_amended_login_prompt "demo-app"
    { install := true, setupDb := false, adapter := some "vercel",
      adapterInfo := some (createAdapter "Vercel") }
    { sampleEnv with installOk := false } (by decide) (by decide)
    [("astro", "^4.0.0"), ("@astrojs/vercel", "^7.8.1")] (by decide)

end ATSDC
